import Mathlib

/-!
Verification of the natural-language specification of `tv-binance-webhook`
(`src/app.py`) against a shallow embedding of its code.

Modelling conventions:
* Python floats are embedded as `ℚ` (the ideal-arithmetic reading of each
  arithmetic expression in the source); where a claim is specifically about
  IEEE-754 binary behaviour this is noted at the claim.
* Network calls are embedded as explicit oracle inputs: an equity query is an
  `Option ℚ` (`none` = every wallet-balance request failed), the venue's
  responses to the webhook's requests are a `VenueBehavior` record.
* `fmt_num` (decimal string formatting) is value-preserving in the ideal
  reading, so quantities are kept as `ℚ` values rather than strings.
-/

/-! ### Quantization (`round_to_step`, `round_qty`, `round_price`, app.py lines 86-101) -/

/-- `round_to_step(x, step) = math.floor(x / step) * step` (app.py line 86-87),
read in exact arithmetic. -/
def round_to_step (x step : ℚ) : ℚ :=
  ⌊x / step⌋ * step

/-- Numeric value of `round_qty(q, lot, min_qty)` (app.py lines 97-101):
floor to the lot grid, then raise to `min_qty` if below it. -/
def round_qty_val (q lot min_qty : ℚ) : ℚ :=
  let q1 := round_to_step q lot
  if q1 < min_qty then min_qty else q1

/-! ### Secret check (`_check_secret`, app.py lines 104-107) -/

/-- Python truthiness of a string-or-`None` value: `None` and `""` are falsy. -/
def truthy : Option String → Bool
  | none => false
  | some s => !(s == "")

/-- Value of the Python expression
`body.get("secret") or req.query_params.get("secret") or req.headers.get("x-alert-secret")`:
the first truthy operand, or the last operand if none is truthy. -/
def py_or3 (a b c : Option String) : Option String :=
  if truthy a then a else if truthy b then b else c

/-- `_check_secret` (app.py lines 104-107): the or-chain value compared to the
shared secret. A `none` or-chain value compares unequal to any string. -/
def check_secret (a b c : Option String) (shared : String) : Bool :=
  if py_or3 a b c = some shared then true else false

/-- Spec-side reading of the claim C10: the first *present truthy* value among
body, query and header, `none` when no operand is truthy. -/
def first_present_truthy (a b c : Option String) : Option String :=
  if truthy a then a else if truthy b then b else if truthy c then c else none

/-! ### Equity query (`get_total_equity`, app.py lines 135-156) -/

/-- `get_total_equity`: tries UNIFIED then CONTRACT wallet balance; on total
failure the final `return 0.0` is reached. The oracle `src` is `some e` when
one of the queries produced equity `e`, `none` when every attempt failed. -/
def get_total_equity (src : Option ℚ) : ℚ :=
  match src with
  | some e => e
  | none => 0

/-! ### Daily loss guard (app.py lines 161-225) -/

/-- The `GUARD` global dict (app.py lines 161-168). -/
structure GuardState where
  enabled : Bool
  limit_pct : Option ℚ
  limit_usd : Option ℚ
  baseline : Option ℚ
  block : Bool
  start_date : Option String
deriving DecidableEq

/-- Python `GUARD["baseline"] or eq`: `None` and `0.0` are falsy. -/
def py_or_q (a : Option ℚ) (b : ℚ) : ℚ :=
  match a with
  | none => b
  | some x => if x = 0 then b else x

/-- Return value of `_guard_status_now` (app.py lines 173-188). -/
structure GuardStatus where
  enabled : Bool
  limit_pct : Option ℚ
  limit_usd : Option ℚ
  baseline : ℚ
  equity_now : ℚ
  drawdown_usd : ℚ
  drawdown_pct : ℚ
  block : Bool
  start_date : Option String
deriving DecidableEq

/-- `_guard_status_now` (app.py lines 173-188), with the equity read `eq`
passed in explicitly. -/
def guard_status_now (g : GuardState) (eq : ℚ) : GuardStatus :=
  let base := py_or_q g.baseline eq
  let dd_usd := max 0 (base - eq)
  let dd_pct := if base > 0 then dd_usd / base * 100 else 0
  { enabled := g.enabled, limit_pct := g.limit_pct, limit_usd := g.limit_usd,
    baseline := base, equity_now := eq, drawdown_usd := dd_usd,
    drawdown_pct := dd_pct, block := g.block, start_date := g.start_date }

/-- `guard_reset_baseline` (app.py lines 190-195): baseline := current equity,
block := False, start_date := today. -/
def guard_reset_baseline (g : GuardState) (src : Option ℚ) (today : String) : GuardState :=
  { g with baseline := some (get_total_equity src), block := false, start_date := some today }

/-- Result dict of `guard_check_and_update_block` (the human-readable `reason`
string is not modelled; the claims only inspect `ok`/`blocked`/`status`). -/
structure GuardResult where
  ok : Bool
  blocked : Bool
  status : GuardStatus
deriving DecidableEq

/-- `guard_check_and_update_block` (app.py lines 197-225): early return when
disabled; baseline reset on UTC-day change; block iff a configured limit is
met or exceeded; the new block flag is stored back into the state. The source
calls `get_total_equity` several times during one evaluation; all reads within
one evaluation are served by the same oracle `src` (equity taken as stable for
the duration of a single request). -/
def guard_check_and_update_block (g : GuardState) (src : Option ℚ) (today : String) :
    GuardResult × GuardState :=
  if g.enabled = false then
    ({ ok := true, blocked := false, status := guard_status_now g (get_total_equity src) }, g)
  else
    let g1 := if g.start_date ≠ some today then guard_reset_baseline g src today else g
    let st := guard_status_now g1 (get_total_equity src)
    let pctHit : Bool := match g1.limit_pct with
      | some l => if st.drawdown_pct ≥ l then true else false
      | none => false
    let usdHit : Bool := match g1.limit_usd with
      | some l => if st.drawdown_usd ≥ l then true else false
      | none => false
    let should_block := pctHit || usdHit
    let g2 := { g1 with block := should_block }
    ({ ok := !should_block, blocked := should_block,
       status := guard_status_now g2 (get_total_equity src) }, g2)

/-! ### Bracket split (inline in `tv_webhook`, app.py lines 371-381) -/

/-- The TP quantity split (app.py lines 371-381): TP1 gets 30% floored to the
lot grid, TP2 the floored remainder; if TP1 floors below `min_qty` it is
raised to `min_qty` when the total is at least `2 * min_qty`, and only
otherwise zeroed with the whole quantity routed to TP2. -/
def tp_split (qty_rounded lot min_qty : ℚ) : ℚ × ℚ :=
  let tp1 := round_to_step (qty_rounded * (30 / 100)) lot
  let tp2 := round_to_step (qty_rounded - tp1) lot
  if tp1 < min_qty then
    if qty_rounded ≥ 2 * min_qty then
      let tp1a := round_to_step min_qty lot
      (tp1a, round_to_step (qty_rounded - tp1a) lot)
    else
      (0, qty_rounded)
  else
    (tp1, tp2)

/-! ### Webhook orchestration (`tv_webhook`, app.py lines 276-474) -/

/-- An `order/create` request body (app.py lines 332-337, 387-396, 441-453);
quantities and prices carry the numeric value of the formatted string. -/
structure OrderReq where
  symbol : String
  side : String
  orderType : String
  qty : ℚ
  price : Option ℚ
  timeInForce : String
  reduceOnly : Bool
  triggerPrice : Option ℚ
  triggerBy : Option String
  triggerDirection : Option ℕ
  linkSuffix : String
  positionIdx : Option ℕ
deriving DecidableEq

/-- One state-changing venue request issued by the webhook handler, with the
venue's accept/reject verdict. -/
inductive VenueCall where
  | createOrder (o : OrderReq) (accepted : Bool)
  | tradingStop (slTriggerBy : String) (accepted : Bool)
deriving DecidableEq

/-- Venue-side oracle for one `/tv` request: instrument filters (`none` when
`instruments-info` fails), the position the venue holds before the entry is
submitted (never queried by the handler before submission), acceptance of the
entry order, the sizes successive position polls report, the `positionIdx`
reported by the post-entry `get_position` (`none` = no position or query
error), and acceptance of TP1/TP2, the two trading-stop attempts and the
fallback stop-market order. -/
structure VenueBehavior where
  filters : Option (ℚ × ℚ × ℚ)
  prePosition : Option (String × ℚ)
  entryOk : Bool
  pollSizes : ℕ → ℚ
  postIdx : Option ℕ
  tp1Ok : Bool
  tp2Ok : Bool
  tsMarkOk : Bool
  tsLastOk : Bool
  fallbackOk : Bool

/-- `wait_position` (app.py lines 345-355): up to 12 polls; returns the first
reported size `> 0`, else `0.0` after the last try. -/
def wait_position_from (sizes : ℕ → ℚ) : ℕ → ℕ → ℚ
  | _, 0 => 0
  | i, Nat.succ k => if sizes i > 0 then sizes i else wait_position_from sizes (i + 1) k

/-- The `wait_position(symbol)` call as made at app.py line 357 (`tries=12`). -/
def wait_position (sizes : ℕ → ℚ) : ℚ :=
  wait_position_from sizes 0 12

/-- ASCII uppercase of a character, as Python's `str.upper` acts on ASCII. -/
def upper_char (c : Char) : Char :=
  if 'a' ≤ c ∧ c ≤ 'z' then Char.ofNat (c.toNat - 32) else c

/-- Python `str.upper()` on ASCII strings (app.py lines 305, 587). -/
def str_upper (s : String) : String :=
  ⟨s.data.map upper_char⟩

/-- The `positionIdx` chosen from the request body (app.py lines 311-315). -/
def position_idx_from_body (pidx : Option ℕ) (hedge : Bool) (side : String) : ℕ :=
  match pidx with
  | some i => if i = 0 ∨ i = 1 ∨ i = 2 then i
              else if hedge then (if side = "LONG" then 1 else 2) else 0
  | none => if hedge then (if side = "LONG" then 1 else 2) else 0

/-- Post-entry hedge-index autodetection (app.py lines 360-368): adopt the
reported index only when it is 1 or 2. -/
def position_idx_auto (postIdx : Option ℕ) (cur : ℕ) : ℕ :=
  match postIdx with
  | some i => if i = 1 ∨ i = 2 then i else cur
  | none => cur

/-- Result of the stop-loss attachment chain (app.py lines 411-465):
`sl_set`/`sl_mode` as returned in the response, plus the venue requests made. -/
structure SlResult where
  sl_set : Bool
  sl_mode : String
  calls : List VenueCall
deriving DecidableEq

/-- The stop-loss chain (app.py lines 411-465): position-level trading-stop
with MarkPrice trigger; on rejection once more with LastPrice; on a second
rejection a standalone reduceOnly conditional stop-market order (qty is the
entry `qty_str`, trigger direction 2 for LONG / 1 for SHORT); `sl_mode`
records `position`, `stopMarket` or `none`. -/
def sl_chain (symbol side : String) (qty_entry sl_px : ℚ) (posIdx : ℕ)
    (markOk lastOk fbOk : Bool) : SlResult :=
  if markOk then
    { sl_set := true, sl_mode := "position", calls := [.tradingStop "MarkPrice" true] }
  else if lastOk then
    { sl_set := true, sl_mode := "position",
      calls := [.tradingStop "MarkPrice" false, .tradingStop "LastPrice" true] }
  else
    let trig_dir : ℕ := if side = "LONG" then 2 else 1
    let fb : OrderReq :=
      { symbol := symbol, side := if side = "LONG" then "Sell" else "Buy",
        orderType := "Market", qty := qty_entry, price := none, timeInForce := "IOC",
        reduceOnly := true, triggerPrice := some sl_px, triggerBy := some "MarkPrice",
        triggerDirection := some trig_dir, linkSuffix := "SLB",
        positionIdx := if posIdx ≠ 0 then some posIdx else none }
    if fbOk then
      { sl_set := true, sl_mode := "stopMarket",
        calls := [.tradingStop "MarkPrice" false, .tradingStop "LastPrice" false,
                  .createOrder fb true] }
    else
      { sl_set := false, sl_mode := "none",
        calls := [.tradingStop "MarkPrice" false, .tradingStop "LastPrice" false,
                  .createOrder fb false] }

/-- The success-path JSON payload of `/tv` (app.py lines 467-474): whether the
TP ids are non-null, and the stop-loss outcome. -/
structure TvSuccess where
  tp1Some : Bool
  tp2Some : Bool
  sl_set : Bool
  sl_mode : String
deriving DecidableEq

/-- The `/tv` handler's response (payloads other than the success path are not
needed by the claims and are abbreviated to their case). -/
inductive TvResponse where
  | badSecret
  | ping
  | missingFields
  | guardBlocked
  | filtersFailed
  | entryFailed
  | success (s : TvSuccess)
deriving DecidableEq

/-- Observable outcome of one `/tv` request: the HTTP response, each
`order/create` request actually issued (with the venue's verdict), the
trading-stop/fallback calls of the stop chain, and the final guard state. -/
structure TvOutcome where
  response : TvResponse
  entryCall : Option (OrderReq × Bool)
  tp1Call : Option (OrderReq × Bool)
  tp2Call : Option (OrderReq × Bool)
  slCalls : List VenueCall
  guard : GuardState

/-- Parsed JSON body of a `/tv` request (absent keys are `none`). -/
structure TvBody where
  secret : Option String
  type_ : Option String
  symbol : Option String
  side : Option String
  qty : Option ℚ
  sl : Option ℚ
  tp1 : Option ℚ
  tp2 : Option ℚ
  positionIdx : Option ℕ
  hedge : Bool

/-- Everything `tv_webhook` does after the guard gate (app.py lines 304-474):
quantity rounding, entry submission, position polling (result discarded, as
at line 357), hedge-index autodetection, TP split and placement, stop chain.
`gs` is the guard state after the guard check, carried to the outcome. -/
def tv_entry_phase (gs : GuardState) (symbol side0 : String) (qty_in sl tp1 tp2 : ℚ)
    (pidx : Option ℕ) (hedge : Bool) (v : VenueBehavior) : TvOutcome :=
  let side := str_upper side0
  let positionIdx := position_idx_from_body pidx hedge side
  match v.filters with
  | none =>
    { response := .filtersFailed, entryCall := none, tp1Call := none, tp2Call := none,
      slCalls := [], guard := gs }
  | some (tick, lot, min_qty) =>
    let qty_rounded := max (round_to_step qty_in lot) min_qty
    let by_side := if side = "LONG" then "Buy" else "Sell"
    let entry : OrderReq :=
      { symbol := symbol, side := by_side, orderType := "Market", qty := qty_rounded,
        price := none, timeInForce := "IOC", reduceOnly := false, triggerPrice := none,
        triggerBy := none, triggerDirection := none, linkSuffix := "",
        positionIdx := if positionIdx ≠ 0 then some positionIdx else none }
    if v.entryOk = false then
      { response := .entryFailed, entryCall := some (entry, false), tp1Call := none,
        tp2Call := none, slCalls := [], guard := gs }
    else
      let _sz := wait_position v.pollSizes
      let positionIdx2 := position_idx_auto v.postIdx positionIdx
      let split := tp_split qty_rounded lot min_qty
      let mkTp : ℚ → ℚ → String → Option OrderReq := fun px qf sfx =>
        if qf ≤ 0 then none
        else some
          { symbol := symbol, side := if side = "LONG" then "Sell" else "Buy",
            orderType := "Limit", qty := round_qty_val qf lot min_qty,
            price := some (round_to_step px tick), timeInForce := "GTC",
            reduceOnly := true, triggerPrice := none, triggerBy := none,
            triggerDirection := none, linkSuffix := sfx,
            positionIdx := if positionIdx2 ≠ 0 then some positionIdx2 else none }
      let tp1Call := (mkTp tp1 split.1 "TP1").map (fun o => (o, v.tp1Ok))
      let tp2Call := (mkTp tp2 split.2 "TP2").map (fun o => (o, v.tp2Ok))
      let sl_px := round_to_step sl tick
      let slr := sl_chain symbol side qty_rounded sl_px positionIdx2
        v.tsMarkOk v.tsLastOk v.fallbackOk
      { response := .success
          { tp1Some := tp1Call.isSome && v.tp1Ok, tp2Some := tp2Call.isSome && v.tp2Ok,
            sl_set := slr.sl_set, sl_mode := slr.sl_mode },
        entryCall := some (entry, true), tp1Call := tp1Call, tp2Call := tp2Call,
        slCalls := slr.calls, guard := gs }

/-- The `/tv` handler (app.py lines 276-474): secret check, ping short-circuit,
required-field check, guard gate, then the entry phase. `src` is the equity
oracle for the guard's wallet-balance reads, `today` the current UTC date,
`qs`/`hdr` the query-string and header secrets. -/
def tv_webhook (g : GuardState) (src : Option ℚ) (today shared : String)
    (body : TvBody) (qs hdr : Option String) (v : VenueBehavior) : TvOutcome :=
  if check_secret body.secret qs hdr shared then
    if body.type_ = some "ping" then
      { response := .ping, entryCall := none, tp1Call := none, tp2Call := none,
        slCalls := [], guard := g }
    else
      match body.symbol, body.side, body.qty, body.sl, body.tp1, body.tp2 with
      | some symbol, some side0, some qty_in, some slv, some t1, some t2 =>
        let gr := guard_check_and_update_block g src today
        if gr.1.blocked then
          { response := .guardBlocked, entryCall := none, tp1Call := none,
            tp2Call := none, slCalls := [], guard := gr.2 }
        else
          tv_entry_phase gr.2 symbol side0 qty_in slv t1 t2 body.positionIdx body.hedge v
      | _, _, _, _, _, _ =>
        { response := .missingFields, entryCall := none, tp1Call := none,
          tp2Call := none, slCalls := [], guard := g }
  else
    { response := .badSecret, entryCall := none, tp1Call := none, tp2Call := none,
      slCalls := [], guard := g }

/-- Convenience: the quantity of the submitted entry order, if any. -/
def entry_qty_of (o : TvOutcome) : Option ℚ :=
  o.entryCall.map (fun e => e.1.qty)

/-- Convenience: whether an entry order was submitted to the venue. -/
def places_entry (o : TvOutcome) : Bool :=
  o.entryCall.isSome

/-- Convenience: the stop-loss fallback orders among the stop-chain calls. -/
def slb_orders (o : TvOutcome) : List OrderReq :=
  o.slCalls.filterMap (fun c =>
    match c with
    | .createOrder r _ => if r.linkSuffix = "SLB" then some r else none
    | .tradingStop _ _ => none)

/-- Convenience: `sl_mode` of a success response. -/
def sl_mode_of (o : TvOutcome) : Option String :=
  match o.response with
  | .success s => some s.sl_mode
  | _ => none

/-- Convenience: `sl_set` of a success response. -/
def sl_set_of (o : TvOutcome) : Option Bool :=
  match o.response with
  | .success s => some s.sl_set
  | _ => none

/-! ### Shared fixtures and helper lemmas -/

/-- A disabled guard, as on process start (app.py lines 161-168). -/
def gOff : GuardState :=
  { enabled := false, limit_pct := none, limit_usd := none, baseline := none,
    block := false, start_date := none }

/-- A well-formed long alert for 3 contracts (qty 3, sl 95, tp 105/110). -/
def bodyStd : TvBody :=
  { secret := some "pw", type_ := none, symbol := some "BTCUSDT", side := some "long",
    qty := some 3, sl := some 95, tp1 := some 105, tp2 := some 110,
    positionIdx := none, hedge := false }

/-- A venue holding a short position of size 5 before the entry, accepting
everything, but whose position polls never report a positive size. -/
def vStd : VenueBehavior :=
  { filters := some (1/2, 1, 1), prePosition := some ("Sell", 5), entryOk := true,
    pollSizes := fun _ => 0, postIdx := none, tp1Ok := true, tp2Ok := true,
    tsMarkOk := true, tsLastOk := true, fallbackOk := true }

lemma tv_webhook_ignores_prePosition (g : GuardState) (src : Option ℚ) (today shared : String)
    (body : TvBody) (qs hdr : Option String) (v : VenueBehavior) (p : Option (String × ℚ)) :
    tv_webhook g src today shared body qs hdr { v with prePosition := p } =
      tv_webhook g src today shared body qs hdr v := by
  cases v
  rfl

lemma tv_entry_phase_guard (gs : GuardState) (symbol side0 : String) (qty_in sl tp1 tp2 : ℚ)
    (pidx : Option ℕ) (hedge : Bool) (v : VenueBehavior) :
    (tv_entry_phase gs symbol side0 qty_in sl tp1 tp2 pidx hedge v).guard = gs := by
  unfold tv_entry_phase
  rcases hf : v.filters with _ | ⟨tick, lot, mq⟩
  · simp [hf]
  · by_cases hE : v.entryOk = false <;> simp [hf, hE]

lemma guard_check_blocked_char (g : GuardState) (b eqv : ℚ) (today : String)
    (hen : g.enabled = true) (hsd : g.start_date = some today)
    (hb : g.baseline = some b) (hbpos : 0 < b) :
    (guard_check_and_update_block g (some eqv) today).1.blocked =
      ((match g.limit_pct with
        | some l => if max 0 (b - eqv) / b * 100 ≥ l then true else false
        | none => false) ||
       (match g.limit_usd with
        | some l => if max 0 (b - eqv) ≥ l then true else false
        | none => false)) := by
  simp only [guard_check_and_update_block, hen, guard_status_now, py_or_q,
    get_total_equity, hsd, hb, hbpos.ne', if_false, Bool.true_eq_false, ite_false,
    ne_eq, not_true_eq_false, if_pos hbpos]

lemma guard_check_idem (g : GuardState) (src : Option ℚ) (today : String) :
    guard_check_and_update_block (guard_check_and_update_block g src today).2 src today =
      guard_check_and_update_block g src today := by
  rcases g with ⟨en, lp, lu, bl, blk, sd⟩
  by_cases hen : en = false
  · subst hen
    simp [guard_check_and_update_block]
  · have hen' : en = true := by
      cases en
      · exact absurd rfl hen
      · rfl
    subst hen'
    by_cases hsd : sd = some today
    · subst hsd
      simp [guard_check_and_update_block, guard_status_now, py_or_q, guard_reset_baseline]
    · simp [guard_check_and_update_block, guard_status_now, py_or_q, guard_reset_baseline, hsd]

/-! ### C5 -/

/-- C5: in the exact decimal arithmetic the spec mandates for the quantize
step, `round_qty` with a zero minimum always returns an exact integer multiple
of the step, and with any minimum the result is at least that minimum. (The
source computes this with IEEE-754 binary doubles instead, which violates the
exactness requirement; see the results for the failing input.) -/
theorem round_qty_grid_and_min (x step mq : ℚ) :
    (∃ k : ℤ, round_qty_val x step 0 = k * step) ∧ mq ≤ round_qty_val x step mq := by
  constructor
  · unfold round_qty_val round_to_step
    dsimp only
    split_ifs with h
    · exact ⟨0, by norm_num⟩
    · exact ⟨⌊x / step⌋, rfl⟩
  · unfold round_qty_val
    dsimp only
    split_ifs with h
    · exact le_refl mq
    · exact not_lt.mp h

/-! ### C4 -/

/-- C4 counterexample: a filled size of `0.02` with `lotStep = minQty = 0.01`
is NOT folded into TP2. TP1 floors to `0.006 → 0 < minQty`, but since
`0.02 ≥ 2 * minQty` the code raises TP1 to `minQty`, giving
`tp1 = 0.01, tp2 = 0.01` rather than the claimed `tp1 = 0, tp2 = 0.02`. -/
theorem tp_split_small_qty_not_folded :
    tp_split (2/100) (1/100) (1/100) = (1/100, 1/100) ∧
    ¬ tp_split (2/100) (1/100) (1/100) = (0, 2/100) := by
  norm_num [tp_split, round_to_step]

/-- C4 amended: TP1 gets 30% of the rounded entry quantity floored to the lot
step and TP2 the floored remainder (size `1.0` with step = min = `0.01` gives
`(0.30, 0.70)`); when TP1 floors below `minQty`, it is zeroed and folded into
TP2 only when the quantity is below `2 * minQty`, and otherwise TP1 is raised
to `minQty` with TP2 taking the remainder. -/
theorem tp_split_policy :
    tp_split 1 (1/100) (1/100) = (3/10, 7/10) ∧
    tp_split (2/100) (1/100) (1/100) = (1/100, 1/100) ∧
    (∀ qty lot mq : ℚ, round_to_step (qty * (30/100)) lot < mq → qty < 2 * mq →
      tp_split qty lot mq = (0, qty)) ∧
    (∀ qty lot mq : ℚ, round_to_step (qty * (30/100)) lot < mq → qty ≥ 2 * mq →
      tp_split qty lot mq =
        (round_to_step mq lot, round_to_step (qty - round_to_step mq lot) lot)) := by
  refine ⟨by norm_num [tp_split, round_to_step], by norm_num [tp_split, round_to_step], ?_, ?_⟩
  · intro qty lot mq h1 h2
    simp only [tp_split]
    rw [if_pos h1, if_neg (not_le.mpr h2)]
  · intro qty lot mq h1 h2
    simp only [tp_split]
    rw [if_pos h1, if_pos h2]

/-- C4 amended witness: a quantity of `0.03` with lot `0.01` and `minQty`
`0.02` has TP1 flooring below the minimum and total below `2 * minQty`,
so everything is routed to TP2. -/
theorem tp_split_policy_w : tp_split (3/100) (1/100) (2/100) = (0, 3/100) :=
  tp_split_policy.2.2.1 (3/100) (1/100) (2/100) (by norm_num [round_to_step])
    (by norm_num)

/-! ### C7 -/

/-- C7: with the guard enabled, the window already on today's UTC date and a
positive baseline `b` recorded, an evaluation reports `blocked = true` exactly
when a configured percentage limit satisfies
`max 0 (b - equity) / b * 100 ≥ limit_pct` or a configured absolute limit
satisfies `max 0 (b - equity) ≥ limit_usd`: a met-or-exceeded comparison. -/
theorem guard_blocked_iff_threshold (g : GuardState) (b eqv : ℚ) (today : String)
    (hen : g.enabled = true) (hsd : g.start_date = some today)
    (hb : g.baseline = some b) (hbpos : 0 < b) :
    (guard_check_and_update_block g (some eqv) today).1.blocked = true ↔
      ((∃ l, g.limit_pct = some l ∧ max 0 (b - eqv) / b * 100 ≥ l) ∨
       (∃ l, g.limit_usd = some l ∧ max 0 (b - eqv) ≥ l)) := by
  rw [guard_check_blocked_char g b eqv today hen hsd hb hbpos]
  cases hp : g.limit_pct <;> cases hu : g.limit_usd <;> simp [hp, hu]

/-- C7 witness: baseline 100, equity 95 (drawdown 5%), limit_pct 2 ⇒ blocked. -/
theorem guard_blocked_iff_threshold_w :
    (guard_check_and_update_block
        { enabled := true, limit_pct := some 2, limit_usd := none, baseline := some 100,
          block := false, start_date := some "2026-10-12" }
        (some 95) "2026-10-12").1.blocked = true ↔
      ((∃ l, (some (2:ℚ)) = some l ∧ max 0 ((100:ℚ) - 95) / 100 * 100 ≥ l) ∨
       (∃ l, (none : Option ℚ) = some l ∧ max 0 ((100:ℚ) - 95) ≥ l)) :=
  guard_blocked_iff_threshold
    { enabled := true, limit_pct := some 2, limit_usd := none, baseline := some 100,
      block := false, start_date := some "2026-10-12" }
    100 95 "2026-10-12" rfl rfl rfl (by norm_num)

/-! ### C6 -/

/-- A guard enabled with a 10 USD daily limit, baseline 100, not yet blocked. -/
def gC6 : GuardState :=
  { enabled := true, limit_pct := none, limit_usd := some 10, baseline := some 100,
    block := false, start_date := some "2026-10-12" }

/-- C6 counterexample: with a 10 USD limit and baseline 100, an evaluation at
equity 85 blocks, but the very next evaluation on the same UTC day at equity
100 (drawdown back to 0) reports `blocked = false` with no reset call in
between: the block flag is recomputed, not latched. -/
theorem guard_block_clears_without_reset :
    (guard_check_and_update_block gC6 (some 85) "2026-10-12").1.blocked = true ∧
    (guard_check_and_update_block
        (guard_check_and_update_block gC6 (some 85) "2026-10-12").2
        (some 100) "2026-10-12").1.blocked = false := by
  norm_num [guard_check_and_update_block, guard_status_now, py_or_q, get_total_equity, gC6]

/-- C6 amended: every evaluation recomputes `blocked` from the current
drawdown and overwrites the stored flag; on the same UTC day, if equity has
recovered so that the drawdown is strictly below every configured limit, the
evaluation reports `blocked = false` even though the previous evaluation had
set `block = true` and no reset was called. -/
theorem guard_block_recomputed_each_eval (g : GuardState) (b eqv : ℚ) (today : String)
    (hen : g.enabled = true) (hsd : g.start_date = some today)
    (hb : g.baseline = some b) (hbpos : 0 < b) (_hblk : g.block = true)
    (hp : ∀ l, g.limit_pct = some l → max 0 (b - eqv) / b * 100 < l)
    (hu : ∀ l, g.limit_usd = some l → max 0 (b - eqv) < l) :
    (guard_check_and_update_block g (some eqv) today).1.blocked = false := by
  rw [guard_check_blocked_char g b eqv today hen hsd hb hbpos]
  cases hp' : g.limit_pct <;> cases hu' : g.limit_usd <;> simp_all

/-- C6 amended witness: previously blocked state (block = true, 10 USD limit,
baseline 100) evaluated at recovered equity 100 reports not blocked. -/
theorem guard_block_recomputed_each_eval_w :
    (guard_check_and_update_block
        { enabled := true, limit_pct := none, limit_usd := some 10, baseline := some 100,
          block := true, start_date := some "2026-10-12" }
        (some 100) "2026-10-12").1.blocked = false :=
  guard_block_recomputed_each_eval
    { enabled := true, limit_pct := none, limit_usd := some 10, baseline := some 100,
      block := true, start_date := some "2026-10-12" }
    100 100 "2026-10-12" rfl rfl rfl (by norm_num) rfl
    (fun l hl => Option.noConfusion hl)
    (fun l hl => by injection hl with h; subst h; norm_num)

/-! ### C1 -/

/-- A guard enabled with a 150 USD daily limit and baseline 100. -/
def gC1 : GuardState :=
  { enabled := true, limit_pct := none, limit_usd := some 150, baseline := some 100,
    block := false, start_date := some "2026-10-12" }

/-- C1: the guard does NOT fail closed. With the guard enabled (150 USD limit,
baseline 100) and every equity query failing (`get_total_equity` falls through
to `0.0`), the evaluation reports `blocked = false` — the computed 100 USD
drawdown is below the 150 USD limit — and a webhook request then proceeds to
submit an entry order. -/
theorem guard_equity_failure_permits_entry :
    (guard_check_and_update_block gC1 none "2026-10-12").1.blocked = false ∧
    places_entry (tv_webhook gC1 none "2026-10-12" "pw" bodyStd none none vStd) = true := by
  have hsec : check_secret (some "pw") none none "pw" = true := by decide
  have hup : str_upper "long" = "LONG" := by decide
  have hnp : ¬ ((none : Option String) = some "ping") := by decide
  norm_num [tv_webhook, tv_entry_phase, hsec, hup, hnp,
    guard_check_and_update_block, guard_status_now, py_or_q, get_total_equity,
    position_idx_from_body, position_idx_auto,
    round_to_step, round_qty_val, tp_split, sl_chain, wait_position, wait_position_from,
    places_entry, gC1, bodyStd, vStd]

/-! ### C2 -/

/-- C2 counterexample: with `vStd` every position poll reports size 0, so
`wait_position` exhausts its 12 tries and returns 0 (no confirmed position);
the run nevertheless submits both TP legs, submits no conditional stop-market
fallback (the trading-stop succeeded), and reports an ordinary success with
`sl_mode = "position"` — there is no distinct degraded outcome. -/
theorem tv_unconfirmed_poll_still_places_tp :
    wait_position vStd.pollSizes = 0 ∧
    (tv_webhook gOff none "2026-10-12" "pw" bodyStd none none vStd).tp1Call ≠ none ∧
    (tv_webhook gOff none "2026-10-12" "pw" bodyStd none none vStd).tp2Call ≠ none ∧
    slb_orders (tv_webhook gOff none "2026-10-12" "pw" bodyStd none none vStd) = [] ∧
    sl_mode_of (tv_webhook gOff none "2026-10-12" "pw" bodyStd none none vStd) =
      some "position" := by
  have hsec : check_secret (some "pw") none none "pw" = true := by decide
  have hup : str_upper "long" = "LONG" := by decide
  have hnp : ¬ ((none : Option String) = some "ping") := by decide
  norm_num [tv_webhook, tv_entry_phase, hsec, hup, hnp,
    guard_check_and_update_block, guard_status_now, py_or_q, get_total_equity,
    position_idx_from_body, position_idx_auto,
    round_to_step, round_qty_val, tp_split, sl_chain, wait_position, wait_position_from,
    slb_orders, sl_mode_of, gOff, bodyStd, vStd]
  simp

/-- C2 amended: the handler discards the poll result (`_ = wait_position(...)`
at app.py line 357), so the whole outcome — TP legs, stop chain and response —
is identical whatever the position polls report; a run whose poll exhausts all
attempts unconfirmed proceeds exactly like a confirmed one and returns the
ordinary success response. -/
theorem tv_outcome_ignores_poll_results (g : GuardState) (src : Option ℚ)
    (today shared : String) (body : TvBody) (qs hdr : Option String)
    (v : VenueBehavior) (p : ℕ → ℚ) :
    tv_webhook g src today shared body qs hdr { v with pollSizes := p } =
      tv_webhook g src today shared body qs hdr v := by
  cases v
  rfl

/-! ### C3 -/

/-- C3 counterexample: the venue reports an existing opposing Short 5
(`vStd.prePosition`), the request is Long 3, yet the submitted entry quantity
is 3, not the claimed 8: no flip adjustment exists in the code, which never
queries the position before submitting the entry. -/
theorem tv_flip_not_applied :
    vStd.prePosition = some ("Sell", 5) ∧
    entry_qty_of (tv_webhook gOff none "2026-10-12" "pw" bodyStd none none vStd) = some 3 ∧
    ¬ entry_qty_of (tv_webhook gOff none "2026-10-12" "pw" bodyStd none none vStd) = some 8 := by
  have hsec : check_secret (some "pw") none none "pw" = true := by decide
  have hup : str_upper "long" = "LONG" := by decide
  have hnp : ¬ ((none : Option String) = some "ping") := by decide
  norm_num [tv_webhook, tv_entry_phase, hsec, hup, hnp,
    guard_check_and_update_block, guard_status_now, py_or_q, get_total_equity,
    position_idx_from_body, position_idx_auto,
    round_to_step, round_qty_val, tp_split, sl_chain, wait_position, wait_position_from,
    entry_qty_of, gOff, bodyStd, vStd]

/-- C3 amended: for every run that reaches entry submission, the submitted
entry quantity is `max (round_to_step qty lotStep) minQty`, computed from the
request quantity alone; it is independent of any existing venue position
(changing `prePosition` changes nothing in the outcome). -/
theorem tv_entry_qty_from_request_only (g : GuardState) (src : Option ℚ)
    (today shared : String) (sec ty : Option String) (sym sd : String)
    (q slv t1 t2 : ℚ) (pidx : Option ℕ) (hedge : Bool) (qs hdr : Option String)
    (v : VenueBehavior) (tick lot mq : ℚ) (p : Option (String × ℚ))
    (hsec : check_secret sec qs hdr shared = true)
    (hty : ty ≠ some "ping")
    (hg : (guard_check_and_update_block g src today).1.blocked = false)
    (hf : v.filters = some (tick, lot, mq)) :
    entry_qty_of (tv_webhook g src today shared
        ⟨sec, ty, some sym, some sd, some q, some slv, some t1, some t2, pidx, hedge⟩
        qs hdr v) = some (max (round_to_step q lot) mq) ∧
    tv_webhook g src today shared
        ⟨sec, ty, some sym, some sd, some q, some slv, some t1, some t2, pidx, hedge⟩
        qs hdr { v with prePosition := p } =
      tv_webhook g src today shared
        ⟨sec, ty, some sym, some sd, some q, some slv, some t1, some t2, pidx, hedge⟩
        qs hdr v := by
  constructor
  · simp only [tv_webhook, hsec, if_true, if_neg hty, hg]
    simp only [tv_entry_phase, hf]
    by_cases hE : v.entryOk = false <;> simp [hE, entry_qty_of]
  · exact tv_webhook_ignores_prePosition g src today shared _ qs hdr v p

/-- C3 amended witness: the instantiation at the counterexample inputs — a
3-contract long with lot step 1 and minimum 1 submits quantity
`max (round_to_step 3 1) 1`, independent of the venue's pre-existing short. -/
theorem tv_entry_qty_from_request_only_w :
    entry_qty_of (tv_webhook gOff none "2026-10-12" "pw"
        ⟨some "pw", none, some "BTCUSDT", some "long", some 3, some 95, some 105, some 110,
          none, false⟩ none none vStd) = some (max (round_to_step 3 1) 1) ∧
    tv_webhook gOff none "2026-10-12" "pw"
        ⟨some "pw", none, some "BTCUSDT", some "long", some 3, some 95, some 105, some 110,
          none, false⟩ none none { vStd with prePosition := none } =
      tv_webhook gOff none "2026-10-12" "pw"
        ⟨some "pw", none, some "BTCUSDT", some "long", some 3, some 95, some 105, some 110,
          none, false⟩ none none vStd :=
  tv_entry_qty_from_request_only gOff none "2026-10-12" "pw" (some "pw") none
    "BTCUSDT" "long" 3 95 105 110 none false none none vStd (1/2) 1 1 none
    (by decide) (by decide)
    (by norm_num [guard_check_and_update_block, gOff]) rfl

/-! ### C8 -/

/-- A venue that rejects both position-level trading-stop attempts, accepts
the fallback stop-market order, and whose polls report a filled size of 2. -/
def vC8 : VenueBehavior :=
  { filters := some (1/2, 1, 1), prePosition := none, entryOk := true,
    pollSizes := fun _ => 2, postIdx := none, tp1Ok := true, tp2Ok := true,
    tsMarkOk := false, tsLastOk := false, fallbackOk := true }

/-- C8 counterexample: the venue confirms a filled position of size 2 (first
poll), but after both trading-stop rejections the fallback stop-market order
is submitted with quantity 3 — the rounded request quantity (`qty_str`), not
the filled position size. -/
theorem tv_fallback_qty_not_filled_size :
    wait_position vC8.pollSizes = 2 ∧
    (slb_orders (tv_webhook gOff none "2026-10-12" "pw" bodyStd none none vC8)).map
        (fun o => o.qty) = [3] ∧
    ¬ ((2 : ℚ) = 3) := by
  have hsec : check_secret (some "pw") none none "pw" = true := by decide
  have hup : str_upper "long" = "LONG" := by decide
  have hnp : ¬ ((none : Option String) = some "ping") := by decide
  norm_num [tv_webhook, tv_entry_phase, hsec, hup, hnp,
    guard_check_and_update_block, guard_status_now, py_or_q, get_total_equity,
    position_idx_from_body, position_idx_auto,
    round_to_step, round_qty_val, tp_split, sl_chain, wait_position, wait_position_from,
    slb_orders, gOff, bodyStd, vC8]
  simp [List.filterMap_cons]

/-- C8 amended: the stop attachment tries a MarkPrice position-level
trading-stop, retries once with LastPrice on rejection, and only after both
rejections submits a standalone reduceOnly conditional stop-market order —
sized to the rounded request quantity (not the filled size) — with trigger
direction 2 (downward) for a long and 1 (upward) for a short; the response
records `sl_mode = "stopMarket"` when the fallback is accepted and `"none"`
with `sl_set = false` when it is also rejected. -/
theorem tv_stop_fallback_chain (g : GuardState) (src : Option ℚ)
    (today shared : String) (sec ty : Option String) (sym sd : String)
    (q slv t1 t2 : ℚ) (pidx : Option ℕ) (hedge : Bool) (qs hdr : Option String)
    (v : VenueBehavior) (tick lot mq : ℚ)
    (hsec : check_secret sec qs hdr shared = true)
    (hty : ty ≠ some "ping")
    (hg : (guard_check_and_update_block g src today).1.blocked = false)
    (hf : v.filters = some (tick, lot, mq))
    (hE : v.entryOk = true)
    (hM : v.tsMarkOk = false)
    (hL : v.tsLastOk = false) :
    (tv_webhook g src today shared
        ⟨sec, ty, some sym, some sd, some q, some slv, some t1, some t2, pidx, hedge⟩
        qs hdr v).slCalls =
      [VenueCall.tradingStop "MarkPrice" false, VenueCall.tradingStop "LastPrice" false,
       VenueCall.createOrder
         { symbol := sym, side := if str_upper sd = "LONG" then "Sell" else "Buy",
           orderType := "Market", qty := max (round_to_step q lot) mq, price := none,
           timeInForce := "IOC", reduceOnly := true,
           triggerPrice := some (round_to_step slv tick), triggerBy := some "MarkPrice",
           triggerDirection := some (if str_upper sd = "LONG" then 2 else 1),
           linkSuffix := "SLB",
           positionIdx :=
             if position_idx_auto v.postIdx (position_idx_from_body pidx hedge (str_upper sd)) ≠ 0
             then some (position_idx_auto v.postIdx (position_idx_from_body pidx hedge (str_upper sd)))
             else none }
         v.fallbackOk] ∧
    sl_mode_of (tv_webhook g src today shared
        ⟨sec, ty, some sym, some sd, some q, some slv, some t1, some t2, pidx, hedge⟩
        qs hdr v) = some (if v.fallbackOk then "stopMarket" else "none") ∧
    sl_set_of (tv_webhook g src today shared
        ⟨sec, ty, some sym, some sd, some q, some slv, some t1, some t2, pidx, hedge⟩
        qs hdr v) = some v.fallbackOk := by
  simp only [tv_webhook, hsec, if_true, if_neg hty, hg]
  simp only [tv_entry_phase, hf]
  cases hF : v.fallbackOk <;>
    simp [hE, hM, hL, hF, sl_chain, sl_mode_of, sl_set_of]

/-- C8 amended witness: concrete long request (qty 3, sl 95) against `vC8`:
both trading-stop attempts are rejected, the fallback stop-market order is
submitted with the rounded request quantity and downward trigger, and the
response records the `stopMarket` mechanism. -/
theorem tv_stop_fallback_chain_w :
    (tv_webhook gOff none "2026-10-12" "pw"
        ⟨some "pw", none, some "BTCUSDT", some "long", some 3, some 95, some 105, some 110,
          none, false⟩ none none vC8).slCalls =
      [VenueCall.tradingStop "MarkPrice" false, VenueCall.tradingStop "LastPrice" false,
       VenueCall.createOrder
         { symbol := "BTCUSDT", side := if str_upper "long" = "LONG" then "Sell" else "Buy",
           orderType := "Market", qty := max (round_to_step 3 1) 1, price := none,
           timeInForce := "IOC", reduceOnly := true,
           triggerPrice := some (round_to_step 95 (1/2)), triggerBy := some "MarkPrice",
           triggerDirection := some (if str_upper "long" = "LONG" then 2 else 1),
           linkSuffix := "SLB",
           positionIdx :=
             if position_idx_auto vC8.postIdx (position_idx_from_body none false (str_upper "long")) ≠ 0
             then some (position_idx_auto vC8.postIdx (position_idx_from_body none false (str_upper "long")))
             else none }
         vC8.fallbackOk] ∧
    sl_mode_of (tv_webhook gOff none "2026-10-12" "pw"
        ⟨some "pw", none, some "BTCUSDT", some "long", some 3, some 95, some 105, some 110,
          none, false⟩ none none vC8) = some (if vC8.fallbackOk then "stopMarket" else "none") ∧
    sl_set_of (tv_webhook gOff none "2026-10-12" "pw"
        ⟨some "pw", none, some "BTCUSDT", some "long", some 3, some 95, some 105, some 110,
          none, false⟩ none none vC8) = some vC8.fallbackOk :=
  tv_stop_fallback_chain gOff none "2026-10-12" "pw" (some "pw") none "BTCUSDT" "long"
    3 95 105 110 none false none none vC8 (1/2) 1 1
    (by decide) (by decide)
    (by norm_num [guard_check_and_update_block, gOff]) rfl rfl rfl rfl

/-! ### C9 -/

/-- C9 counterexample: two identical signals processed back to back (the
second starts from the guard state the first one left behind, within any
dedup or cooldown window one pleases): both submit an entry order — nothing
suppresses the repeat. -/
theorem tv_repeat_signal_processed :
    places_entry (tv_webhook gOff none "2026-10-12" "pw" bodyStd none none vStd) = true ∧
    places_entry (tv_webhook
        (tv_webhook gOff none "2026-10-12" "pw" bodyStd none none vStd).guard
        none "2026-10-12" "pw" bodyStd none none vStd) = true := by
  have hsec : check_secret (some "pw") none none "pw" = true := by decide
  have hup : str_upper "long" = "LONG" := by decide
  have hnp : ¬ ((none : Option String) = some "ping") := by decide
  norm_num [tv_webhook, tv_entry_phase, hsec, hup, hnp,
    guard_check_and_update_block, guard_status_now, py_or_q, get_total_equity,
    position_idx_from_body, position_idx_auto,
    round_to_step, round_qty_val, tp_split, sl_chain, wait_position, wait_position_from,
    places_entry, gOff, bodyStd, vStd]

/-- C9 amended: the handler keeps no dedup or cooldown state at all — the only
state it carries between requests is the guard dict, and one evaluation leaves
the guard idempotent — so reprocessing the identical signal against the state
the first run left behind yields the identical outcome, including submitting
the same orders again. -/
theorem tv_webhook_stateless_repeat (g : GuardState) (src : Option ℚ)
    (today shared : String) (body : TvBody) (qs hdr : Option String)
    (v : VenueBehavior) :
    tv_webhook (tv_webhook g src today shared body qs hdr v).guard
        src today shared body qs hdr v =
      tv_webhook g src today shared body qs hdr v := by
  by_cases h1 : check_secret body.secret qs hdr shared = true
  swap
  · simp [tv_webhook, h1]
  by_cases h2 : body.type_ = some "ping"
  · simp [tv_webhook, h1, h2]
  rcases hsym : body.symbol with _ | sym
  · simp [tv_webhook, h1, h2, hsym]
  rcases hside : body.side with _ | sd
  · simp [tv_webhook, h1, h2, hsym, hside]
  rcases hq : body.qty with _ | q
  · simp [tv_webhook, h1, h2, hsym, hside, hq]
  rcases hsl : body.sl with _ | slv
  · simp [tv_webhook, h1, h2, hsym, hside, hq, hsl]
  rcases ht1 : body.tp1 with _ | t1
  · simp [tv_webhook, h1, h2, hsym, hside, hq, hsl, ht1]
  rcases ht2 : body.tp2 with _ | t2
  · simp [tv_webhook, h1, h2, hsym, hside, hq, hsl, ht1, ht2]
  have hidem := guard_check_idem g src today
  by_cases h3 : (guard_check_and_update_block g src today).1.blocked = true
  · simp [tv_webhook, h1, h2, hsym, hside, hq, hsl, ht1, ht2, h3, hidem]
  · have h3' : (guard_check_and_update_block g src today).1.blocked = false := by
      cases hb : (guard_check_and_update_block g src today).1.blocked
      · rfl
      · exact absurd hb h3
    simp [tv_webhook, h1, h2, hsym, hside, hq, hsl, ht1, ht2, h3', hidem,
      tv_entry_phase_guard]

/-! ### C10 -/

/-- C10: authentication succeeds exactly when the first present truthy value
among the body `secret`, the query-string `secret` and the `x-alert-secret`
header — examined in that order — equals the shared secret (which `require_env`
guarantees to be non-empty). -/
theorem check_secret_first_truthy (a b c : Option String) (shared : String)
    (hs : shared ≠ "") :
    check_secret a b c shared = true ↔ first_present_truthy a b c = some shared := by
  rcases a with _ | sa <;> rcases b with _ | sb <;> rcases c with _ | sc <;>
    simp only [check_secret, py_or3, first_present_truthy, truthy] <;>
    simp_all <;>
    split_ifs <;>
    simp_all <;>
    exact fun h => hs h.symm

/-- C10 witness: a wrong secret in the body is rejected even though the
correct secret is present in the query string. -/
theorem check_secret_first_truthy_w :
    check_secret (some "wrong") (some "pw") none "pw" = false := by
  have h := check_secret_first_truthy (some "wrong") (some "pw") none "pw" (by decide)
  rw [show first_present_truthy (some "wrong") (some "pw") none = some "wrong" from by decide] at h
  simpa using h
